import Mathlib

/-!
Shallow embedding of the pyfleascope library
(`serial_terminal.py`, `trigger_config.py`, `flea_scope.py`).

Conventions of the embedding:
* Python `float` values are modelled as exact rationals (`ℚ`).  All the
  arithmetic the claims touch happens at magnitudes where IEEE doubles are
  far more precise than the decision thresholds, and the specification's
  own formulas are stated over exact reals.
* Python `int(x)` (truncation toward zero) is modelled by `pyInt`.
* A raised Python exception is `Except.error` carrying a `PyError`.
* Python strings are `String`; in the transport layer, where negative-index
  slicing matters, they are `List Char`.
* The mutable class-level list `BitTriggerBuilder.bit_states` is a single
  shared object in the source (every builder instance and every built
  `BitTrigger` alias it); the embedding passes that one list explicitly,
  so the current list value is the entire relevant heap.
* Python's `timedelta` normalises its fields to
  `0 ≤ seconds < 86400`, `0 ≤ microseconds < 1000000`, with `days` carrying
  the sign; the structure `Timedelta` records exactly those normalised
  fields.
-/

/-- The Python exception kinds raised by the embedded code.  Messages are
kept verbatim where the source uses a fixed literal; messages that the
source builds by interpolating runtime values are abbreviated to a fixed
descriptive string. -/
inductive PyError where
  | valueError (msg : String)
  | indexError
  | timeoutError
  | assertionError
deriving DecidableEq

/-- `true` exactly on `Except.error`. -/
def isErr {ε α : Type} : Except ε α → Bool
  | .error _ => true
  | .ok _ => false

/-! ## serial_terminal.py -/

/-- The whitespace characters stripped by Python's `str.strip()`. -/
def pyIsSpace (c : Char) : Bool :=
  c = ' ' || c = '\t' || c = '\n' || c = '\x0b' || c = '\x0c' || c = '\r'

/-- Python `s.strip()`: drop whitespace from both ends. -/
def pyStrip (xs : List Char) : List Char :=
  ((xs.dropWhile pyIsSpace).reverse.dropWhile pyIsSpace).reverse

/-- Python slice `s[-n:]`: the last `n` characters (all of `s` if shorter). -/
def pyTakeLast (n : Nat) (xs : List Char) : List Char :=
  xs.drop (xs.length - n)

/-- Python slice `s[:-n]`: everything but the last `n` characters. -/
def pyDropLast (n : Nat) (xs : List Char) : List Char :=
  xs.take (xs.length - n)

/-- `SerialTerminal.exec` (serial_terminal.py lines 15–21), after the
write.  `response` is what `serial.read_until(prompt)` returned within the
timeout; by the semantics of `read_until`, the prompt was observed at the
tail of the accumulated response within the timeout iff `response` ends
with `prompt`.  The source then checks `response[-2:] != self._prompt`
(a slice of fixed width 2, independent of the prompt's length), raises
`TimeoutError` on mismatch, and otherwise returns `response[:-2].strip()`. -/
def exec (prompt response : List Char) : Except PyError (List Char) :=
  if pyTakeLast 2 response ≠ prompt then
    .error .timeoutError
  else
    .ok (pyStrip (pyDropLast 2 response))

/-! ## trigger_config.py -/

/-- `BitState` (trigger_config.py lines 4–7). -/
inductive BitState where
  | POSITIVE
  | NEGATIVE
  | IGNORE
deriving DecidableEq, Fintype

/-- `DigitalTriggerBehavior` (trigger_config.py lines 9–13). -/
inductive DigitalTriggerBehavior where
  | AUTO
  | WHILE
  | START
  | STOP
deriving DecidableEq, Fintype

/-- The wire flag of each digital behavior (`Enum` values, lines 9–13). -/
def DigitalTriggerBehavior.value : DigitalTriggerBehavior → String
  | .AUTO => "~"
  | .WHILE => ""
  | .START => "+"
  | .STOP => "-"

/-- The class-level initialiser of `BitTriggerBuilder.bit_states`
(trigger_config.py lines 22–31): eight `IGNORE` entries.  This list is a
class attribute: all builder instances and all built triggers alias it. -/
def bit_states_init : List BitState :=
  [.IGNORE, .IGNORE, .IGNORE, .IGNORE, .IGNORE, .IGNORE, .IGNORE, .IGNORE]

/-- `BitTriggerBuilder.set_bit` (trigger_config.py lines 33–37) acting on
the shared list.  The guard is `bit < 0 or bit > len(self.bit_states)`;
when it passes, Python's `self.bit_states[bit] = state` succeeds for
`bit < len` and raises `IndexError` for `bit == len`. -/
def set_bit (bit_states : List BitState) (bit : Int) (state : BitState) :
    Except PyError (List BitState) :=
  if bit < 0 ∨ bit > (bit_states.length : Int) then
    .error (.valueError ("Bit must be between 0 and " ++ Nat.repr (bit_states.length - 1)))
  else if bit.toNat < bit_states.length then
    .ok (bit_states.set bit.toNat state)
  else
    .error .indexError

/-- First loop of `BitTrigger.into_trigger_fields` (lines 74–77):
`relevant_bits |= 1 << i` for every state that is not `IGNORE`. -/
def relevant_bits (bit_states : List BitState) : Nat :=
  bit_states.enum.foldl
    (fun acc p => if p.2 ≠ BitState.IGNORE then acc ||| (1 <<< p.1) else acc) 0

/-- Second loop of `BitTrigger.into_trigger_fields` (lines 78–81):
`active_bits |= 1 << i` for every `POSITIVE` state. -/
def active_bits (bit_states : List BitState) : Nat :=
  bit_states.enum.foldl
    (fun acc p => if p.2 = BitState.POSITIVE then acc ||| (1 <<< p.1) else acc) 0

/-- Python's `format(n, "02x")`: lowercase hex, zero-padded to width ≥ 2. -/
def hex02 (n : Nat) : String :=
  String.mk (List.replicate (2 - (Nat.toDigits 16 n).length) '0' ++ Nat.toDigits 16 n)

/-- `BitTrigger.into_trigger_fields` (trigger_config.py lines 73–84),
parameterised by the current value of the shared `bit_states` list the
trigger aliases. -/
def into_trigger_fields (bit_states : List BitState) (behavior : DigitalTriggerBehavior) :
    String :=
  behavior.value ++ "0x" ++ hex02 (active_bits bit_states)
    ++ " 0x" ++ hex02 (relevant_bits bit_states)

/-- Modelled from the spec: the decoder that reads one bit state back from
the emitted `active`/`relevant` masks ("decoding the emitted
active/relevant masks reproduces the original assignment").  Not present
in the source; used only to state the round-trip claim. -/
def spec_decode_bit (active relevant : Nat) (i : Nat) : BitState :=
  if active.testBit i then .POSITIVE
  else if relevant.testBit i then .NEGATIVE
  else .IGNORE

/-! ## flea_scope.py: timing -/

/-- A normalised Python `datetime.timedelta`. -/
structure Timedelta where
  days : Int
  seconds : Nat
  microseconds : Nat
  seconds_lt : seconds < 86400
  microseconds_lt : microseconds < 1000000

/-- Total signed duration in microseconds (exact). -/
def Timedelta.total_us (t : Timedelta) : Int :=
  t.days * 86400000000 + (t.seconds : Int) * 1000000 + (t.microseconds : Int)

/-- Python `timedelta.total_seconds()` (exact-rational model of the float). -/
def Timedelta.total_seconds (t : Timedelta) : ℚ :=
  (t.total_us : ℚ) / 1000000

/-- `FleaScope._MSPS = 120.0 * 5 / 33` (flea_scope.py line 86),
the sample-clock rate in ticks per microsecond. -/
def MSPS : ℚ := 120 * 5 / 33

/-- Python `int(q)`: truncation toward zero. -/
def pyInt (q : ℚ) : Int := if q < 0 then ⌈q⌉ else ⌊q⌋

/-- `FleaScope._timedelta_to_ticks` (flea_scope.py lines 122–123).  Note:
it reads only the `microseconds` and `seconds` fields, never `days`. -/
def timedelta_to_ticks (t : Timedelta) : ℚ :=
  (t.microseconds : ℚ) * MSPS + (t.seconds : ℚ) * 1000000 * MSPS

/-- `FleaScope.raw_read` (flea_scope.py lines 125–142) up to the point
where the `scope` command is issued: validation, quantisation, and the
`assert ticks_per_sample > 0`.  On success it returns the pair
`(ticks_per_sample, delay_samples)` that is interpolated into the
`scope {ticks_per_sample} {trigger_fields} {delay_samples}` command; an
`error` means the function raises before any command is written. -/
def raw_read (time_frame delay : Timedelta) : Except PyError (Int × Int) :=
  if time_frame.total_seconds < 0 then
    .error (.valueError "Time frame cannot be negative.")
  else if 2 < time_frame.total_seconds then
    .error (.valueError "Time frame too large. Max 2 seconds.")
  else if time_frame.seconds = 0 ∧ time_frame.microseconds < 111 then
    .error (.valueError "Time frame too small. Min 111 microseconds.")
  else if delay.total_seconds < 0 then
    .error (.valueError "Delay cannot be negative.")
  else if 1 < delay.total_seconds then
    .error (.valueError "Delay too large. Max 1 second.")
  else
    let ticks_per_sample : Int := pyInt (timedelta_to_ticks time_frame / 2000 + 1/2)
    if ticks_per_sample ≤ 0 then
      .error .assertionError
    else
      let delay_samples : Int := pyInt (timedelta_to_ticks delay / (ticks_per_sample : ℚ))
      .ok (ticks_per_sample, delay_samples)

/-! ## flea_scope.py: probe calibration -/

/-- The calibration-relevant state of `FleaProbe` (flea_scope.py
lines 174–182). -/
structure FleaProbe where
  multiplier : Nat
  cal_zero : Option ℚ
  cal_3v3 : Option ℚ

/-- `FleaProbe._raw_to_voltage` (flea_scope.py lines 213–216). -/
def raw_to_voltage (p : FleaProbe) (raw_value : ℚ) : Except PyError ℚ :=
  match p.cal_zero, p.cal_3v3 with
  | some z, some s => .ok ((raw_value - z) / s * (33/10))
  | _, _ => .error (.valueError "Calibration values are not set.")

/-- `FleaProbe._voltage_to_raw` (flea_scope.py lines 218–221). -/
def voltage_to_raw (p : FleaProbe) (voltage : ℚ) : Except PyError ℚ :=
  match p.cal_zero, p.cal_3v3 with
  | some z, some s => .ok (voltage / (33/10) * s + z)
  | _, _ => .error (.valueError "Calibration values are not set.")

/-- `FleaProbe.write_calibration_to_flash` (flea_scope.py lines 199–203):
the two integers assigned to the on-device flash variables
`cal_zero_x{m}` and `cal_3v3_x{m}`. -/
def write_calibration_to_flash (p : FleaProbe) : Except PyError (Int × Int) :=
  match p.cal_zero, p.cal_3v3 with
  | some z, some s =>
      .ok (pyInt (z - 2048 + 1000 + 1/2), pyInt (s * (p.multiplier : ℚ) + 1000 + 1/2))
  | _, _ => .error (.valueError "Calibration values are not set.")

/-- The pure part of `FleaProbe.read_calibration_from_flash` (flea_scope.py
lines 184–193): decode the two integers printed by the device and reject a
degenerate (equal) pair.  The source's error message interpolates the
multiplier and the offending value. -/
def read_calibration_from_flash (multiplier : Nat) (stored_zero stored_3v3 : Int) :
    Except PyError (ℚ × ℚ) :=
  let cal_zero : ℚ := (stored_zero : ℚ) - 1000 + 2048
  let cal_3v3 : ℚ := ((stored_3v3 : ℚ) - 1000) / (multiplier : ℚ)
  if cal_zero = cal_3v3 then
    .error (.valueError "Calibration values for probe are equal.")
  else
    .ok (cal_zero, cal_3v3)

/-! ## flea_scope.py: teardown -/

/-- `FleaScope.__del__` (flea_scope.py lines 168–171), abstracted over an
oracle `o` giving each `exec` call's outcome.  Returns the list of `exec`
calls made, in order, together with the exception (if any) that escapes
the `__del__` body.  The body has no exception handler: if
`exec("echo on")` raises, `exec("prompt on")` is never called and the
exception leaves the body (the Python runtime, not this code, then
suppresses it). -/
def flea_del (serial_present : Bool) (o : String → Except PyError String) :
    List String × Option PyError :=
  if serial_present then
    match o "echo on" with
    | .error e => (["echo on"], some e)
    | .ok _ =>
        match o "prompt on" with
        | .error e => (["echo on", "prompt on"], some e)
        | .ok _ => (["echo on", "prompt on"], none)
  else
    ([], none)

/-! ## Concrete inputs used by witnesses and counterexamples -/

/-- `timedelta(0)`. -/
def td0 : Timedelta := ⟨0, 0, 0, by norm_num, by norm_num⟩

/-- `timedelta(microseconds=111)`. -/
def td111us : Timedelta := ⟨0, 0, 111, by norm_num, by norm_num⟩

/-- `timedelta(microseconds=3)`. -/
def td3us : Timedelta := ⟨0, 0, 3, by norm_num, by norm_num⟩

/-- `timedelta(milliseconds=20)`. -/
def td20ms : Timedelta := ⟨0, 0, 20000, by norm_num, by norm_num⟩

/-! ## Decidability of `Except` equality (used to evaluate the embedding) -/

instance exceptDecEq {e a : Type} [DecidableEq e] [DecidableEq a] : DecidableEq (Except e a)
  | .error x, .error y =>
    if h : x = y then .isTrue (by rw [h]) else .isFalse (by intro hc; injection hc; exact h (by assumption))
  | .error _, .ok _ => .isFalse (fun hc => Except.noConfusion hc)
  | .ok _, .error _ => .isFalse (fun hc => Except.noConfusion hc)
  | .ok x, .ok y =>
    if h : x = y then .isTrue (by rw [h]) else .isFalse (by intro hc; injection hc; exact h (by assumption))

/-! ## C10: the builder's bit-index bounds check -/

/-- Claim C10: `set_bit`'s guard `bit < 0 or bit > len(bit_states)` rejects
every negative index with a `ValueError` promising the range 0 to 7, but
accepts `bit == 8`, where the subsequent list assignment raises
`IndexError` instead. -/
theorem set_bit_index_eight (s : List BitState) (st : BitState) (bit : Int)
    (hs : s.length = 8) (hneg : bit < 0) :
    set_bit s bit st = .error (.valueError "Bit must be between 0 and 7") ∧
    set_bit s 8 st = .error .indexError := by
  constructor
  · unfold set_bit
    rw [if_pos (Or.inl hneg), hs]
    rfl
  · unfold set_bit
    rw [if_neg (by rw [hs]; omega), if_neg (by rw [hs]; omega)]

/-- Witness for C10 at a concrete builder state and index. -/
theorem set_bit_index_eight_witness :
    set_bit bit_states_init (-1) .POSITIVE = .error (.valueError "Bit must be between 0 and 7") ∧
    set_bit bit_states_init 8 .POSITIVE = .error .indexError :=
  set_bit_index_eight bit_states_init .POSITIVE (-1) rfl (by norm_num)

/-! ## C5: the trigger builder's shared mutable state -/

/-- Counterexample to claim C5: with the shared class-level list in its
initial (all-`IGNORE`) state, building a `WHILE` trigger yields the
encoding `"0x00 0x00"`; a single subsequent `set_bit(0, POSITIVE)` call
mutates the shared list that the already-built trigger aliases, and the
same trigger's `into_trigger_fields` now yields `"0x01 0x01"`.  So a
`set_bit` call after construction does change a built trigger's bit states
and encoded string, contradicting immutability. -/
theorem trigger_mutation_counterexample :
    set_bit bit_states_init 0 .POSITIVE =
      .ok [BitState.POSITIVE, .IGNORE, .IGNORE, .IGNORE, .IGNORE, .IGNORE, .IGNORE, .IGNORE] ∧
    into_trigger_fields bit_states_init .WHILE = "0x00 0x00" ∧
    into_trigger_fields
      [BitState.POSITIVE, .IGNORE, .IGNORE, .IGNORE, .IGNORE, .IGNORE, .IGNORE, .IGNORE] .WHILE
      = "0x01 0x01" := by
  refine ⟨by decide, by decide, by decide⟩

/-- Claim C5 (amended): the builder's bit-state list is a single shared
class-level object that starts all-`IGNORE`; `set_bit` mutates it in place
(modelled as producing the updated shared list), building a trigger copies
nothing, and a built trigger's `into_trigger_fields` always reflects the
shared list's current value — so a later `set_bit` on any builder changes
every previously built trigger's encoding whenever it changes the list. -/
theorem trigger_builder_shared_state (s : List BitState) (i : Int) (st : BitState)
    (h0 : 0 ≤ i) (h : i < (s.length : Int)) :
    bit_states_init = List.replicate 8 BitState.IGNORE ∧
    set_bit s i st = .ok (s.set i.toNat st) := by
  constructor
  · decide
  · unfold set_bit
    rw [if_neg (by omega), if_pos (by omega)]

/-- Witness for C5 (amended) at the initial shared list. -/
theorem trigger_builder_shared_state_witness :
    bit_states_init = List.replicate 8 BitState.IGNORE ∧
    set_bit bit_states_init 1 .NEGATIVE = .ok (bit_states_init.set 1 .NEGATIVE) :=
  trigger_builder_shared_state bit_states_init 1 .NEGATIVE (by norm_num) (by decide)

/-! ## C6: digital trigger encode/decode round trip -/

/-- Spine of both accumulation loops of `into_trigger_fields`: the OR of
`1 <<< k` over the positions (counted from `n`) whose state satisfies `P`. -/
def or_bits (P : BitState → Prop) [DecidablePred P] : List BitState → Nat → Nat
  | [], _ => 0
  | b :: bs, n => (if P b then 1 <<< n else 0) ||| or_bits P bs (n + 1)

lemma foldl_or_bits (P : BitState → Prop) [DecidablePred P] (l : List BitState)
    (n acc : Nat) :
    (List.enumFrom n l).foldl (fun acc p => if P p.2 then acc ||| (1 <<< p.1) else acc) acc
      = acc ||| or_bits P l n := by
  induction l generalizing n acc with
  | nil => simp [or_bits]
  | cons b bs ih =>
    rw [List.enumFrom_cons]
    simp only [List.foldl_cons]
    by_cases hP : P b
    · rw [if_pos hP, ih, or_bits, if_pos hP, Nat.or_assoc]
    · rw [if_neg hP, ih, or_bits, if_neg hP, Nat.zero_or]

lemma or_bits_testBit (P : BitState → Prop) [DecidablePred P] :
    ∀ (l : List BitState) (n j : Nat),
      (or_bits P l n).testBit j
        = if n ≤ j then ((l[j - n]?).map (fun b => decide (P b))).getD false else false := by
  intro l
  induction l with
  | nil =>
    intro n j
    simp [or_bits, Nat.zero_testBit]
  | cons b bs ih =>
    intro n j
    rw [or_bits, Nat.testBit_or]
    rcases Nat.lt_trichotomy j n with hj | hj | hj
    · have h1 : (if P b then 1 <<< n else 0).testBit j = false := by
        by_cases hP : P b
        · rw [if_pos hP, Nat.shiftLeft_eq, one_mul, Nat.testBit_two_pow]
          simp
          omega
        · rw [if_neg hP]
          exact Nat.zero_testBit j
      rw [h1, ih, if_neg (by omega), if_neg (by omega)]
      rfl
    · subst hj
      have h1 : (if P b then 1 <<< j else 0).testBit j = decide (P b) := by
        by_cases hP : P b
        · rw [if_pos hP, Nat.shiftLeft_eq, one_mul, Nat.testBit_two_pow]
          simp [hP]
        · rw [if_neg hP, Nat.zero_testBit]
          simp [hP]
      rw [h1, ih, if_neg (by omega), if_pos (le_refl j), Nat.sub_self]
      simp
    · have h1 : (if P b then 1 <<< n else 0).testBit j = false := by
        by_cases hP : P b
        · rw [if_pos hP, Nat.shiftLeft_eq, one_mul, Nat.testBit_two_pow]
          simp
          omega
        · rw [if_neg hP]
          exact Nat.zero_testBit j
      rw [h1, ih, if_pos (by omega), if_pos (by omega)]
      have h2 : j - n = (j - (n + 1)) + 1 := by omega
      rw [h2, List.getElem?_cons_succ]
      rfl

lemma relevant_bits_or_bits (bs : List BitState) :
    relevant_bits bs = or_bits (fun b => b ≠ BitState.IGNORE) bs 0 := by
  unfold relevant_bits
  exact (foldl_or_bits (fun b => b ≠ BitState.IGNORE) bs 0 0).trans
    (Nat.zero_or _)

lemma active_bits_or_bits (bs : List BitState) :
    active_bits bs = or_bits (fun b => b = BitState.POSITIVE) bs 0 := by
  unfold active_bits
  exact (foldl_or_bits (fun b => b = BitState.POSITIVE) bs 0 0).trans
    (Nat.zero_or _)

lemma active_bits_testBit (bs : List BitState) (i : Nat) (h : i < bs.length) :
    (active_bits bs).testBit i = decide (bs.get ⟨i, h⟩ = BitState.POSITIVE) := by
  rw [active_bits_or_bits, or_bits_testBit, if_pos (Nat.zero_le i), Nat.sub_zero,
    List.getElem?_eq_getElem h]
  simp

lemma relevant_bits_testBit (bs : List BitState) (i : Nat) (h : i < bs.length) :
    (relevant_bits bs).testBit i = decide (bs.get ⟨i, h⟩ ≠ BitState.IGNORE) := by
  rw [relevant_bits_or_bits, or_bits_testBit, if_pos (Nat.zero_le i), Nat.sub_zero,
    List.getElem?_eq_getElem h]
  simp

/-- Claim C6: for every assignment of the digital trigger bits and every
behavior, the encoder emits `"{flag}0x{active:02x} 0x{relevant:02x}"`
with `relevant` the OR of non-IGNORE positions and `active` the OR of
POSITIVE positions; decoding the masks back reproduces the assignment
exactly, and the spec's scenario (bit 0 POSITIVE, bit 1 NEGATIVE, rest
IGNORE, behavior WHILE) has `active = 0b001`, `relevant = 0b011` and
encodes to `"0x01 0x03"`. -/
theorem digital_trigger_roundtrip :
    (∀ (bs : List BitState) (i : Nat) (h : i < bs.length),
      spec_decode_bit (active_bits bs) (relevant_bits bs) i = bs.get ⟨i, h⟩) ∧
    (∀ (bs : List BitState) (behavior : DigitalTriggerBehavior),
      into_trigger_fields bs behavior
        = behavior.value ++ "0x" ++ hex02 (active_bits bs)
            ++ " 0x" ++ hex02 (relevant_bits bs)) ∧
    active_bits [BitState.POSITIVE, .NEGATIVE, .IGNORE, .IGNORE, .IGNORE, .IGNORE, .IGNORE, .IGNORE] = 1 ∧
    relevant_bits [BitState.POSITIVE, .NEGATIVE, .IGNORE, .IGNORE, .IGNORE, .IGNORE, .IGNORE, .IGNORE] = 3 ∧
    into_trigger_fields
      [BitState.POSITIVE, .NEGATIVE, .IGNORE, .IGNORE, .IGNORE, .IGNORE, .IGNORE, .IGNORE] .WHILE
      = "0x01 0x03" := by
  refine ⟨?_, fun _ _ => rfl, by decide, by decide, by decide⟩
  intro bs i h
  unfold spec_decode_bit
  rw [active_bits_testBit bs i h, relevant_bits_testBit bs i h]
  cases hget : bs.get ⟨i, h⟩ <;> simp

/-- Witness for C6's round-trip component at the spec's scenario. -/
theorem digital_trigger_roundtrip_witness :
    spec_decode_bit
      (active_bits [BitState.POSITIVE, .NEGATIVE, .IGNORE, .IGNORE, .IGNORE, .IGNORE, .IGNORE, .IGNORE])
      (relevant_bits [BitState.POSITIVE, .NEGATIVE, .IGNORE, .IGNORE, .IGNORE, .IGNORE, .IGNORE, .IGNORE])
      1
      = BitState.NEGATIVE :=
  digital_trigger_roundtrip.1
    [BitState.POSITIVE, .NEGATIVE, .IGNORE, .IGNORE, .IGNORE, .IGNORE, .IGNORE, .IGNORE]
    1 (by norm_num)

/-! ## C9: session teardown -/

/-- Counterexample to claim C9: if the first restoration command
(`exec("echo on")`) raises — for instance times out — then `__del__` never
calls `exec("prompt on")`, and the exception escapes the `__del__` body:
the code contains no handler that swallows it (only the Python runtime
suppresses exceptions escaping a finaliser).  So the two restoration
commands do not both run on every exit path. -/
theorem teardown_counterexample :
    flea_del true (fun _ => .error .timeoutError) = (["echo on"], some .timeoutError) ∧
    "prompt on" ∉ (flea_del true (fun _ => .error .timeoutError)).1 := by
  refine ⟨by decide, by decide⟩

/-- Claim C9 (amended): when finalisation runs with a live serial object,
teardown calls `exec("echo on")` and then `exec("prompt on")`; both run
exactly when the first does not raise; if the first raises, the second is
skipped and the exception leaves the `__del__` body unhandled (its
suppression happens in the Python runtime, outside this code). -/
theorem teardown_behavior (o : String → Except PyError String) :
    flea_del false o = ([], none) ∧
    (∀ e, o "echo on" = .error e → flea_del true o = (["echo on"], some e)) ∧
    (∀ r e, o "echo on" = .ok r → o "prompt on" = .error e →
      flea_del true o = (["echo on", "prompt on"], some e)) ∧
    (∀ r r', o "echo on" = .ok r → o "prompt on" = .ok r' →
      flea_del true o = (["echo on", "prompt on"], none)) := by
  refine ⟨rfl, ?_, ?_, ?_⟩
  · intro e he
    simp [flea_del, he]
  · intro r e he hp
    simp [flea_del, he, hp]
  · intro r r' he hp
    simp [flea_del, he, hp]

/-- Witness for C9 (amended) at a concrete oracle where both commands
succeed. -/
theorem teardown_behavior_witness :
    flea_del true (fun _ => .ok "") = (["echo on", "prompt on"], none) :=
  (teardown_behavior (fun _ => .ok "")).2.2.2 "" "" rfl rfl

/-! ## Timing helpers shared by C2, C3, C4 -/

lemma total_seconds_neg_iff (t : Timedelta) : t.total_seconds < 0 ↔ t.total_us < 0 := by
  unfold Timedelta.total_seconds
  rw [div_lt_iff₀ (by norm_num : (0:ℚ) < 1000000), zero_mul,
    show (0:ℚ) = ((0:ℤ):ℚ) from rfl, Int.cast_lt]

lemma total_seconds_gt_two_iff (t : Timedelta) : 2 < t.total_seconds ↔ 2000000 < t.total_us := by
  unfold Timedelta.total_seconds
  rw [lt_div_iff₀ (by norm_num : (0:ℚ) < 1000000),
    show (2:ℚ) * 1000000 = ((2000000:ℤ):ℚ) by norm_num, Int.cast_lt]

lemma total_seconds_gt_one_iff (t : Timedelta) : 1 < t.total_seconds ↔ 1000000 < t.total_us := by
  unfold Timedelta.total_seconds
  rw [lt_div_iff₀ (by norm_num : (0:ℚ) < 1000000),
    show (1:ℚ) * 1000000 = ((1000000:ℤ):ℚ) by norm_num, Int.cast_lt]

lemma days_eq_zero_of_bounds (t : Timedelta) (h0 : ¬ t.total_us < 0)
    (h2 : ¬ 2000000 < t.total_us) : t.days = 0 := by
  have hs := t.seconds_lt
  have hu := t.microseconds_lt
  unfold Timedelta.total_us at h0 h2
  omega

/-- Within the bounds the validation enforces, the source's
microsecond-of-second lower-bound test agrees with a test on the total
duration. -/
lemma low_bound_iff (t : Timedelta) (h0 : ¬ t.total_us < 0) (h2 : ¬ 2000000 < t.total_us) :
    (t.seconds = 0 ∧ t.microseconds < 111) ↔ t.total_us < 111 := by
  have hd : t.days = 0 := days_eq_zero_of_bounds t h0 h2
  have hu := t.microseconds_lt
  unfold Timedelta.total_us at *
  rw [hd] at *
  constructor
  · rintro ⟨hsec, husec⟩
    rw [hsec]
    push_cast
    omega
  · intro hlt
    constructor
    · by_contra hsec
      have : 1 ≤ t.seconds := Nat.one_le_iff_ne_zero.mpr hsec
      push_cast at hlt
      omega
    · push_cast at hlt
      omega

lemma timedelta_to_ticks_nonneg (t : Timedelta) : 0 ≤ timedelta_to_ticks t := by
  unfold timedelta_to_ticks MSPS
  positivity

/-- When the lower-bound check passes, the quantised tick count is
positive: the smallest accepted microsecond count (111) already yields
`111 · (600/33) ≈ 2018` ticks, far above the threshold of 1000. -/
lemma ticks_per_sample_pos (t : Timedelta) (h : ¬ (t.seconds = 0 ∧ t.microseconds < 111)) :
    0 < pyInt (timedelta_to_ticks t / 2000 + 1/2) := by
  have hx : (1000:ℚ) ≤ timedelta_to_ticks t := by
    unfold timedelta_to_ticks MSPS
    rcases Nat.eq_zero_or_pos t.seconds with hs | hs
    · have hus : 111 ≤ t.microseconds := by
        by_contra hlt
        exact h ⟨hs, by omega⟩
      have h111 : (111:ℚ) ≤ (t.microseconds:ℚ) := by exact_mod_cast hus
      have hsec : (0:ℚ) ≤ (t.seconds : ℚ) * 1000000 * (120 * 5 / 33) := by positivity
      nlinarith
    · have h1 : (1:ℚ) ≤ (t.seconds:ℚ) := by exact_mod_cast hs
      have husq : (0:ℚ) ≤ (t.microseconds : ℚ) * (120 * 5 / 33) := by positivity
      nlinarith
  have harg : (1:ℚ) ≤ timedelta_to_ticks t / 2000 + 1/2 := by linarith
  have hnneg : ¬ (timedelta_to_ticks t / 2000 + 1/2 < 0) := by linarith
  unfold pyInt
  rw [if_neg hnneg]
  have h1 : (1:ℤ) ≤ ⌊timedelta_to_ticks t / 2000 + 1/2⌋ := by
    rw [Int.le_floor]
    exact_mod_cast harg
  omega

/-! ## C2: capture-parameter validation -/

/-- Counterexample to claim C2: a duration of exactly 111 µs lies outside
the claimed open interval (111 µs, 2 s], yet `raw_read` accepts it and
proceeds to issue a command (here with `ticks_per_sample = 1`,
`delay_samples = 0`): the source's check `microseconds < 111` admits the
boundary value. -/
theorem capture_validation_counterexample :
    td111us.total_us = 111 ∧ raw_read td111us td0 = .ok (1, 0) := by
  refine ⟨by decide, ?_⟩
  norm_num [raw_read, pyInt, timedelta_to_ticks, MSPS, td111us, td0, Timedelta.total_seconds,
    Timedelta.total_us]

/-- Claim C2 (amended): capture setup fails with a `ValueError`
(`InvalidCaptureParameters`), before any command is written to the
stream, exactly when the duration is negative or outside the closed
interval [111 µs, 2 s], or the delay is negative or outside [0, 1 s]. -/
theorem capture_validation_characterisation (tf d : Timedelta) :
    (∃ msg, raw_read tf d = .error (.valueError msg)) ↔
      (tf.total_us < 111 ∨ 2000000 < tf.total_us ∨
        d.total_us < 0 ∨ 1000000 < d.total_us) := by
  simp only [raw_read]
  split_ifs with h1 h2 h3 h4 h5 h6
  · exact iff_of_true ⟨_, rfl⟩
      (Or.inl (by have := (total_seconds_neg_iff tf).mp h1; omega))
  · exact iff_of_true ⟨_, rfl⟩
      (Or.inr (Or.inl ((total_seconds_gt_two_iff tf).mp h2)))
  · refine iff_of_true ⟨_, rfl⟩ (Or.inl ?_)
    have h0 : ¬ tf.total_us < 0 := fun hc => h1 ((total_seconds_neg_iff tf).mpr hc)
    have h2' : ¬ 2000000 < tf.total_us := fun hc => h2 ((total_seconds_gt_two_iff tf).mpr hc)
    exact (low_bound_iff tf h0 h2').mp h3
  · exact iff_of_true ⟨_, rfl⟩
      (Or.inr (Or.inr (Or.inl ((total_seconds_neg_iff d).mp h4))))
  · exact iff_of_true ⟨_, rfl⟩
      (Or.inr (Or.inr (Or.inr ((total_seconds_gt_one_iff d).mp h5))))
  · exact absurd (ticks_per_sample_pos tf h3) (by omega)
  · apply iff_of_false
    · rintro ⟨msg, hmsg⟩
      exact hmsg
    · have h0 : ¬ tf.total_us < 0 := fun hc => h1 ((total_seconds_neg_iff tf).mpr hc)
      have h2' : ¬ 2000000 < tf.total_us := fun hc => h2 ((total_seconds_gt_two_iff tf).mpr hc)
      have h3' : ¬ tf.total_us < 111 := fun hc => h3 ((low_bound_iff tf h0 h2').mpr hc)
      have h4' : ¬ d.total_us < 0 := fun hc => h4 ((total_seconds_neg_iff d).mpr hc)
      have h5' : ¬ 1000000 < d.total_us := fun hc => h5 ((total_seconds_gt_one_iff d).mpr hc)
      rintro (hc | hc | hc | hc)
      · exact h3' hc
      · exact h2' hc
      · exact h4' hc
      · exact h5' hc

/-- Witness for C2 (amended) at the concrete pair (3 µs duration, zero
delay): 3 µs is below the lower bound, so validation must fail. -/
theorem capture_validation_characterisation_witness :
    (∃ msg, raw_read td3us td0 = .error (.valueError msg)) ↔
      (td3us.total_us < 111 ∨ 2000000 < td3us.total_us ∨
        td0.total_us < 0 ∨ 1000000 < td0.total_us) :=
  capture_validation_characterisation td3us td0

/-! ## C3: positivity of the tick quantisation -/

/-- Claim C3: for every duration that passes capture validation, the
quantised `ticks_per_sample = int(toTicks(d)/2000 + 0.5)` equals
`round(toTicks(d)/2000)` and is strictly positive, so the internal
assertion `ticks_per_sample > 0` never fires: `raw_read` never raises
`AssertionError`. -/
theorem ticks_per_sample_positive (tf : Timedelta)
    (h1 : ¬ tf.total_seconds < 0) (h2 : ¬ 2 < tf.total_seconds)
    (h3 : ¬ (tf.seconds = 0 ∧ tf.microseconds < 111)) :
    pyInt (timedelta_to_ticks tf / 2000 + 1/2) = round (timedelta_to_ticks tf / 2000) ∧
    0 < pyInt (timedelta_to_ticks tf / 2000 + 1/2) ∧
    ∀ d : Timedelta, raw_read tf d ≠ .error .assertionError := by
  have hpos := ticks_per_sample_pos tf h3
  refine ⟨?_, hpos, ?_⟩
  · have hnneg : ¬ (timedelta_to_ticks tf / 2000 + 1/2 < 0) := by
      have := timedelta_to_ticks_nonneg tf
      intro hc
      nlinarith
    unfold pyInt
    rw [if_neg hnneg, round_eq]
  · intro d hcontra
    simp only [raw_read] at hcontra
    rw [if_neg h1, if_neg h2, if_neg h3] at hcontra
    split_ifs at hcontra with h4 h5 h6
    all_goals
      first
        | exact hcontra
        | exact PyError.noConfusion (Except.error.inj hcontra)
        | exact Except.noConfusion hcontra
        | exact absurd hpos (by omega)

/-- Witness for C3 at the spec's 20 ms scenario duration. -/
theorem ticks_per_sample_positive_witness :
    0 < pyInt (timedelta_to_ticks td20ms / 2000 + 1/2) ∧
    raw_read td20ms td0 ≠ .error .assertionError :=
  ⟨(ticks_per_sample_positive td20ms (by norm_num [Timedelta.total_seconds, Timedelta.total_us, td20ms])
      (by norm_num [Timedelta.total_seconds, Timedelta.total_us, td20ms])
      (by norm_num [td20ms])).2.1,
   (ticks_per_sample_positive td20ms (by norm_num [Timedelta.total_seconds, Timedelta.total_us, td20ms])
      (by norm_num [Timedelta.total_seconds, Timedelta.total_us, td20ms])
      (by norm_num [td20ms])).2.2 td0⟩

/-! ## C4: the delay-sample quantisation -/

/-- Counterexample to claim C4: for the valid capture request with
duration 111 µs (so `ticks_per_sample = 1`) and delay 3 µs, the code sends
`delay_samples = int(54.54…) = 54`, while rounding the quotient to the
nearest integer as the claim states would give
`round(600/11) = round(54.54…) = 55`. -/
theorem delay_samples_counterexample :
    raw_read td111us td3us = .ok (1, 54) ∧
    round (timedelta_to_ticks td3us / ((1:ℤ):ℚ)) ≠ (54:ℤ) := by
  constructor
  · norm_num [raw_read, pyInt, timedelta_to_ticks, MSPS, td111us, td3us, Timedelta.total_seconds,
      Timedelta.total_us]
  · have h1 : timedelta_to_ticks td3us / ((1:ℤ):ℚ) = 600/11 := by
      norm_num [timedelta_to_ticks, MSPS, td3us]
    rw [h1]
    norm_num [round_eq]

/-- Claim C4 (amended): for every capture request that `raw_read` accepts,
the delay sample count sent in the scope command is the quotient
`toTicks(delay) / ticks_per_sample` truncated toward zero — equivalently
its floor, both quantities being nonnegative — not rounded to nearest. -/
theorem delay_samples_floor (tf d : Timedelta) (tps ds : Int)
    (h : raw_read tf d = .ok (tps, ds)) :
    ds = ⌊timedelta_to_ticks d / (tps:ℚ)⌋ ∧ 0 ≤ ds ∧ 0 < tps := by
  simp only [raw_read] at h
  split_ifs at h with h1 h2 h3 h4 h5 h6
  · have hinj := Prod.ext_iff.mp (Except.ok.inj h)
    have htps : pyInt (timedelta_to_ticks tf / 2000 + 1/2) = tps := hinj.1
    have hds : pyInt (timedelta_to_ticks d / (pyInt (timedelta_to_ticks tf / 2000 + 1/2) : ℚ)) = ds :=
      hinj.2
    have hpos : 0 < tps := by
      rw [← htps]
      omega
    have hq : 0 ≤ timedelta_to_ticks d / (tps:ℚ) := by
      apply div_nonneg (timedelta_to_ticks_nonneg d)
      exact_mod_cast le_of_lt hpos
    rw [htps] at hds
    refine ⟨?_, ?_, hpos⟩
    · rw [← hds]
      unfold pyInt
      rw [if_neg (not_lt.mpr hq)]
    · rw [← hds]
      unfold pyInt
      rw [if_neg (not_lt.mpr hq)]
      exact Int.floor_nonneg.mpr hq

/-- Witness for C4 (amended) at the counterexample's concrete request. -/
theorem delay_samples_floor_witness :
    (54:ℤ) = ⌊timedelta_to_ticks td3us / ((1:ℤ):ℚ)⌋ ∧ (0:ℤ) ≤ 54 ∧ (0:ℤ) < 1 :=
  delay_samples_floor td111us td3us 1 54
    (by norm_num [raw_read, pyInt, timedelta_to_ticks, MSPS, td111us, td3us,
      Timedelta.total_seconds, Timedelta.total_us])

/-! ## C1: prompt-synchronised framing in `exec` -/

lemma pyTakeLast_two_eq_iff (prompt response : List Char) (h : prompt.length = 2) :
    pyTakeLast 2 response = prompt ↔ prompt <:+ response := by
  constructor
  · intro he
    rw [← he]
    unfold pyTakeLast
    exact List.drop_suffix _ _
  · rintro ⟨pre, rfl⟩
    unfold pyTakeLast
    rw [List.length_append, h, Nat.add_sub_cancel, List.drop_left]

lemma pyDropLast_two_append (prompt pre : List Char) (h : prompt.length = 2) :
    pyDropLast 2 (pre ++ prompt) = pre := by
  unfold pyDropLast
  rw [List.length_append, h, Nat.add_sub_cancel, List.take_left]

/-- Counterexample to claim C1: with the prompt sentinel configured as
`">"` (the constructor's own default), the response `"ab>"` does end with
the sentinel — so by the claim `exec` must succeed — yet the source's
fixed-width check `response[-2:] != prompt` compares `"b>"` with `">"`
and raises `TimeoutError`. -/
theorem exec_prompt_counterexample :
    ['>'] <:+ ['a', 'b', '>'] ∧ isErr (exec ['>'] ['a', 'b', '>']) = true := by
  exact ⟨⟨['a', 'b'], rfl⟩, by decide⟩

/-- Claim C1 (amended): for every prompt sentinel of exactly two
characters (such as the `"> "` that `FleaConnector` configures), `exec`
raises `TimeoutError` if and only if the sentinel is not observed at the
tail of the accumulated response within the timeout, and on success it
returns the response with the trailing sentinel and surrounding
whitespace stripped.  For sentinels of any other length the tail check
compares the last two characters regardless, and the equivalence fails. -/
theorem exec_prompt_two_chars (prompt response : List Char) (h : prompt.length = 2) :
    (isErr (exec prompt response) = true ↔ ¬ prompt <:+ response) ∧
    (∀ pre, response = pre ++ prompt → exec prompt response = .ok (pyStrip pre)) := by
  constructor
  · rw [← pyTakeLast_two_eq_iff prompt response h]
    unfold exec isErr
    by_cases hc : pyTakeLast 2 response = prompt
    · rw [if_neg (by simpa using hc)]
      simp [hc]
    · rw [if_pos (by simpa using hc)]
      simp [hc]
  · rintro pre rfl
    unfold exec
    rw [if_neg (by
      simpa using (pyTakeLast_two_eq_iff prompt (pre ++ prompt) h).mpr ⟨pre, rfl⟩)]
    rw [pyDropLast_two_append prompt pre h]

/-- Witness for C1 (amended) with the configured sentinel `"> "` and the
response `"ok> "`. -/
theorem exec_prompt_two_chars_witness :
    exec ['>', ' '] ['o', 'k', '>', ' '] = .ok (pyStrip ['o', 'k']) :=
  (exec_prompt_two_chars ['>', ' '] ['o', 'k', '>', ' '] rfl).2 ['o', 'k'] rfl

/-! ## C7: the voltage/raw round trip -/

/-- Claim C7: for every probe whose calibration scalars are both set with
`cal_span ≠ 0` (`cal_3v3` in the source), and every voltage `v`,
converting `v` to a raw code and back returns exactly `v` (the model uses
exact rational arithmetic, so the claim's floating-point tolerance is met
with equality): `rawToVoltage(voltageToRaw(v)) = v`. -/
theorem raw_voltage_roundtrip (p : FleaProbe) (z s v : ℚ)
    (hz : p.cal_zero = some z) (hs : p.cal_3v3 = some s) (hs0 : s ≠ 0) :
    ∃ r, voltage_to_raw p v = .ok r ∧ raw_to_voltage p r = .ok v := by
  refine ⟨v / (33/10) * s + z, ?_, ?_⟩
  · unfold voltage_to_raw
    rw [hz, hs]
  · simp only [raw_to_voltage, hz, hs]
    have hv : (v / (33/10) * s + z - z) / s * (33/10) = v := by
      field_simp
      ring
    rw [hv]

/-- Witness for C7 at the spec's scenario calibration
(`cal_zero = 2048`, `cal_span = 620.9`) and `v = 1.65`. -/
theorem raw_voltage_roundtrip_witness :
    ∃ r, voltage_to_raw ⟨1, some 2048, some (6209/10)⟩ (33/20) = .ok r ∧
      raw_to_voltage ⟨1, some 2048, some (6209/10)⟩ r = .ok (33/20) :=
  raw_voltage_roundtrip ⟨1, some 2048, some (6209/10)⟩ 2048 (6209/10) (33/20)
    rfl rfl (by norm_num)

/-! ## C8: the flash persistence round trip -/

/-- Counterexample to claim C8: for the probe with multiplier 1,
`cal_zero = 1000` and `cal_3v3 = 500`, the code stores
`int(1000 - 2048 + 1000 + 0.5) = int(-47.5) = -47` (Python `int`
truncates toward zero), while the claimed `round(cal_zero - 2048 + 1000)
= round(-48) = -48`. -/
theorem flash_write_counterexample :
    write_calibration_to_flash ⟨1, some 1000, some 500⟩ = .ok (-47, 1500) ∧
    round ((1000:ℚ) - 2048 + 1000) ≠ (-47:ℤ) := by
  constructor
  · norm_num [write_calibration_to_flash, pyInt]
    rw [Int.ceil_eq_iff]
    norm_num
  · norm_num [round_eq]

/-- Claim C8 (amended): writing calibration stores
`storedZero = int(cal_zero - 2048 + 1000 + 0.5)` and
`storedSpan = int(cal_span·m + 1000 + 0.5)` with `int` truncating toward
zero; when `cal_zero ≥ 1048` and `cal_span·m ≥ 0` (as in every realistic
calibration) these equal `round(cal_zero - 2048 + 1000)` and
`round(cal_span·m + 1000)` as the claim states, and reading back applies
the inverse offsets, restoring `cal_zero` to `round(cal_zero)` and
`cal_span` to `round(cal_span·m)/m` — i.e. up to the rounding performed
when the integers were stored; equal decoded zero and span values are
rejected with a `ValueError` (`DegenerateCalibration`). -/
theorem calibration_flash_roundtrip (m : Nat) (z s : ℚ) (_hm : 0 < m)
    (hz : (1048:ℚ) ≤ z) (hs : 0 ≤ s * (m:ℚ)) :
    write_calibration_to_flash ⟨m, some z, some s⟩
      = .ok (round (z - 2048 + 1000), round (s * (m:ℚ) + 1000)) ∧
    (round (z - 2048 + 1000) : ℚ) - 1000 + 2048 = (round z : ℚ) ∧
    ((round (s * (m:ℚ) + 1000) : ℚ) - 1000) / (m:ℚ) = (round (s * (m:ℚ)) : ℚ) / (m:ℚ) ∧
    ((round z : ℚ) ≠ (round (s * (m:ℚ)) : ℚ) / (m:ℚ) →
      read_calibration_from_flash m (round (z - 2048 + 1000)) (round (s * (m:ℚ) + 1000))
        = .ok ((round z : ℚ), (round (s * (m:ℚ)) : ℚ) / (m:ℚ))) ∧
    ((round z : ℚ) = (round (s * (m:ℚ)) : ℚ) / (m:ℚ) →
      read_calibration_from_flash m (round (z - 2048 + 1000)) (round (s * (m:ℚ) + 1000))
        = .error (.valueError "Calibration values for probe are equal.")) := by
  have hz1 : z - 2048 + 1000 = z - 1048 := by ring
  have hcast : (1048:ℚ) = ((1048:ℤ):ℚ) := by norm_num
  have hround_z : round (z - 2048 + 1000) = round z - 1048 := by
    rw [hz1, hcast, round_sub_int]
  have hcast2 : (1000:ℚ) = ((1000:ℤ):ℚ) := by norm_num
  have hround_s : round (s * (m:ℚ) + 1000) = round (s * (m:ℚ)) + 1000 := by
    rw [hcast2, round_add_int]
  have hb1 : (round (z - 2048 + 1000) : ℚ) - 1000 + 2048 = (round z : ℚ) := by
    rw [hround_z]
    push_cast
    ring
  have hb2 : ((round (s * (m:ℚ) + 1000) : ℚ) - 1000) / (m:ℚ)
      = (round (s * (m:ℚ)) : ℚ) / (m:ℚ) := by
    rw [hround_s]
    push_cast
    ring_nf
  refine ⟨?_, hb1, hb2, ?_, ?_⟩
  · simp only [write_calibration_to_flash]
    have e1 : pyInt (z - 2048 + 1000 + 1/2) = round (z - 2048 + 1000) := by
      unfold pyInt
      rw [if_neg (by
        rw [hz1]
        intro hc
        nlinarith), round_eq]
    have e2 : pyInt (s * (m:ℚ) + 1000 + 1/2) = round (s * (m:ℚ) + 1000) := by
      unfold pyInt
      rw [if_neg (by
        intro hc
        nlinarith), round_eq]
    rw [e1, e2]
  · intro hne
    simp only [read_calibration_from_flash]
    rw [if_neg (by rw [hb1, hb2]; exact hne), hb1, hb2]
  · intro heq
    simp only [read_calibration_from_flash]
    rw [if_pos (by rw [hb1, hb2]; exact heq)]

/-- Witness for C8 (amended) at the realistic x1 calibration
`cal_zero = 2104`, `cal_span = 620.9`. -/
theorem calibration_flash_roundtrip_witness :
    write_calibration_to_flash ⟨1, some 2104, some (6209/10)⟩
      = .ok (round ((2104:ℚ) - 2048 + 1000), round ((6209/10:ℚ) * (1:ℚ) + 1000)) :=
  (calibration_flash_roundtrip 1 2104 (6209/10) (by norm_num) (by norm_num) (by norm_num)).1
